import Mathlib

/-!
Verification of the period-accounting core of the Hour-counter work-hours
tracker.  The definitions below are a shallow embedding of the functions in
src/components/work-hours-tracker.tsx and of the IndexedDB access layer
(getLastResetTime and friends).

Modelling conventions:
- Timestamps (the addedAt field, the reset checkpoint, the clock value now)
  are natural numbers standing for epoch milliseconds; the JS code compares
  them with new Date(x).getTime(), a strictly monotone reading of the stored
  ISO strings.
- Calendar dates are natural numbers standing for epoch day ordinals; the JS
  code compares dates by equality of their formatted yyyy-MM-dd strings,
  which is equality of the calendar day.
- The decimal hour counts are rational numbers.  The JS computation
  (hours + minutes/60).toFixed(2) is exact-rational here; see round2 below
  for why the floating-point evaluation agrees with the rational one.
- date-fns formatting calls are modelled by the abstract injective renderers
  formatLongDate and formatDateTime; no claim depends on the concrete text.
- Asynchronous persistence calls that can reject are modelled by boolean
  success flags passed to the operation; a false flag means the awaited call
  throws, transferring control to the surrounding catch block exactly as in
  the source.
-/

/-- WorkEntry from src/unnamed/part_001 (lib/db).  The id is optional before
the first save; saveEntry assigns Date.now().toString() when absent. -/
structure WorkEntry where
  id : Option String
  date : Nat
  startTime : String
  endTime : String
  hoursWorked : Rat
  location : String
  kilometers : Nat
  addedAt : Nat
  deriving DecidableEq

/-- PeriodSummary from src/unnamed/part_001 (lib/db). -/
structure PeriodSummary where
  id : String
  startDate : String
  endDate : String
  resetDate : String
  totalHours : Rat
  totalKilometers : Nat
  deriving DecidableEq

/-- The component state of WorkHoursTracker that the claims are about.  The
fields entries, totalHours, totalKilometers, error, previousPeriods and
lastResetTime are the React state hooks; savedPeriods and savedResetTime are
the persisted IndexedDB periods store and lastReset setting, kept separate so
that persistence failures can be talked about. -/
structure TrackerState where
  entries : List WorkEntry
  totalHours : Rat
  totalKilometers : Nat
  error : String
  previousPeriods : List PeriodSummary
  lastResetTime : Option Nat
  savedPeriods : List PeriodSummary
  savedResetTime : Option Nat
  deriving DecidableEq

/-- Splitting a string at every occurrence of a separator character, the
semantics of the JS String.prototype.split with a one-character separator.
Implemented on the character list by structural recursion so that it
computes. -/
def splitOnChar (sep : Char) : List Char → List (List Char)
  | [] => [[]]
  | c :: cs =>
    if c = sep then [] :: splitOnChar sep cs
    else
      match splitOnChar sep cs with
      | [] => [[c]]
      | p :: ps => (c :: p) :: ps

/-- Decimal reading of a digit string, the value Number gives on the digit
groups of a well-formed HH:MM string. -/
def charDigits (l : List Char) : Nat :=
  l.foldl (fun n c => n * 10 + (c.toNat - 48)) 0

/-- Splitting of an HH:MM string as in start.split(":").map(Number).  For the
well-formed inputs the claims quantify over, the list has exactly two
elements; the remaining branches are unused fallbacks (the JS code would
produce NaN there). -/
def timeParts (s : String) : Int × Int :=
  match (splitOnChar ':' s.data).map (fun p => (charDigits p : Int)) with
  | h :: m :: _ => (h, m)
  | [h] => (h, 0)
  | [] => (0, 0)

/-- Rounding to two decimal places, Number.parseFloat(x.toFixed(2)).
The arguments fed to it by calculateHours always have denominator dividing
60, so the scaled value q * 100 is never half an odd integer (its fractional
part is 0, 1/3 or 2/3); hence every round-to-nearest tie rule agrees, and the
double-precision evaluation in JS (whose error is far below the 1/6 distance
to the nearest tie) rounds to the same 2-decimal value as this exact
rational rounding. -/
def round2 (q : Rat) : Rat := ((round (q * 100) : Int) : Rat) / 100

/-- calculateHours from work-hours-tracker.tsx lines 133-146.  The second
parameter is named stop because end is a Lean keyword. -/
def calculateHours (start stop : String) : Rat :=
  let sp := timeParts start
  let ep := timeParts stop
  let hours := ep.1 - sp.1
  let minutes := ep.2 - sp.2
  let hours2 := if minutes < 0 then hours - 1 else hours
  let minutes2 := if minutes < 0 then minutes + 60 else minutes
  round2 ((hours2 : Rat) + (minutes2 : Rat) / 60)

/-- getKilometers from work-hours-tracker.tsx lines 148-150:
loc.includes("Brakel") is case-sensitive substring containment. -/
def getKilometers (loc : String) : Nat :=
  if "Brakel".data <:+: loc.data then 18 else 50

/-- The current-period filter predicate used by the totals effect (lines
120-131), handleResetTotals and the entry list rendering:
not lastResetTime, or new Date(entry.addedAt).getTime() greater than
new Date(lastResetTime).getTime(). -/
def isCurrentEntry (lastResetTime : Option Nat) (e : WorkEntry) : Bool :=
  match lastResetTime with
  | none => true
  | some t => decide (t < e.addedAt)

/-- entries.filter(entry => !lastResetTime || ...) as in the totals effect. -/
def currentPeriodEntries (entries : List WorkEntry) (lastResetTime : Option Nat) :
    List WorkEntry :=
  entries.filter (fun e => isCurrentEntry lastResetTime e)

/-- The totals effect of work-hours-tracker.tsx lines 120-131: filter to the
current period, then reduce((sum, entry) => sum + entry.hoursWorked, 0) and
the same for kilometers. -/
def aggregate (entries : List WorkEntry) (lastResetTime : Option Nat) : Rat × Nat :=
  let cur := currentPeriodEntries entries lastResetTime
  (cur.foldl (fun sum e => sum + e.hoursWorked) 0,
   cur.foldl (fun sum e => sum + e.kilometers) 0)

/-- handleAddEntry from work-hours-tracker.tsx lines 152-227.  saveOk models
whether the awaited saveEntry call succeeds; on failure the catch block only
sets the error message.  For a new entry, saveEntry assigns the id
Date.now().toString(). -/
def handleAddEntry (s : TrackerState) (date : Option Nat)
    (startTime endTime location : String) (now : Nat) (saveOk : Bool) :
    TrackerState :=
  match date with
  | none => { s with error := "Please select a date" }
  | some d =>
    let hoursWorked := calculateHours startTime endTime
    if hoursWorked ≤ 0 then
      { s with error := "End time must be after start time" }
    else
      let kilometers := getKilometers location
      if !saveOk then
        { s with error := "Failed to save entry. Please try again." }
      else
        match s.entries.findIdx? (fun e => e.date == d) with
        | some i =>
          match s.entries[i]? with
          | some old =>
            let updatedEntry : WorkEntry :=
              { old with
                date := d
                startTime := startTime
                endTime := endTime
                hoursWorked := hoursWorked
                location := location
                kilometers := kilometers }
            { s with entries := s.entries.set i updatedEntry, error := "" }
          | none => s
        | none =>
          let newEntry : WorkEntry :=
            { id := some (toString now)
              date := d
              startTime := startTime
              endTime := endTime
              hoursWorked := hoursWorked
              location := location
              kilometers := kilometers
              addedAt := now }
          { s with entries := s.entries ++ [newEntry], error := "" }

/-- Descending date order used by the endDate sort in handleResetTotals. -/
def dateDesc (a b : WorkEntry) : Prop := b.date ≤ a.date

/-- Ascending date order used by the startDate sort in handleResetTotals. -/
def dateAsc (a b : WorkEntry) : Prop := a.date ≤ b.date

instance : DecidableRel dateDesc := fun a b => Nat.decLe b.date a.date

instance : DecidableRel dateAsc := fun a b => Nat.decLe a.date b.date

instance : IsTotal WorkEntry dateDesc := ⟨fun a b => (Nat.le_total a.date b.date).symm⟩

instance : IsTotal WorkEntry dateAsc := ⟨fun a b => Nat.le_total a.date b.date⟩

instance : IsTrans WorkEntry dateDesc := ⟨fun _ _ _ h1 h2 => Nat.le_trans h2 h1⟩

instance : IsTrans WorkEntry dateAsc := ⟨fun _ _ _ h1 h2 => Nat.le_trans h1 h2⟩

/-- Rendering of format(date, "MMMM d, yyyy"), abstract but injective. -/
def formatLongDate (d : Nat) : String := "date " ++ toString d

/-- Rendering of the long date-plus-time format applied to now (the resetDate
pattern of the source), abstract but injective. -/
def formatDateTime (t : Nat) : String := "datetime " ++ toString t

/-- The endDate computation of handleResetTotals lines 240-248: start from
"No entries", and if the current period is nonempty sort descending by date
and format the first element. -/
def periodEndDate (cur : List WorkEntry) : String :=
  match List.insertionSort dateDesc cur with
  | [] => "No entries"
  | e :: _ => formatLongDate e.date

/-- The startDate computation of handleResetTotals lines 250-258: sort
ascending by date and format the first element. -/
def periodStartDate (cur : List WorkEntry) : String :=
  match List.insertionSort dateAsc cur with
  | [] => "No entries"
  | e :: _ => formatLongDate e.date

/-- The newPeriodSummary object of handleResetTotals lines 261-268:
id is now.getTime().toString(), the boundary dates come from the current
period, resetDate is the formatted clock value, and the totals are the
totalHours and totalKilometers state values frozen at close time. -/
def mkPeriodSummary (s : TrackerState) (now : Nat) : PeriodSummary :=
  let cur := currentPeriodEntries s.entries s.lastResetTime
  { id := toString now
    startDate := periodStartDate cur
    endDate := periodEndDate cur
    resetDate := formatDateTime now
    totalHours := s.totalHours
    totalKilometers := s.totalKilometers }

/-- handleResetTotals from work-hours-tracker.tsx lines 229-289.  confirmed
is the result of the blocking confirm dialog; summarySaveOk and resetSaveOk
tell whether the awaited savePeriodSummary and saveLastResetTime calls
succeed (a false flag throws into the catch block, which only sets the error
message).  Note the source order: when totalHours is positive the summary is
persisted and prepended to previousPeriods first, and only then is the
checkpoint written; the checkpoint write happens in both branches. -/
def handleResetTotals (s : TrackerState) (confirmed : Bool) (now : Nat)
    (summarySaveOk resetSaveOk : Bool) : TrackerState :=
  if !confirmed then s
  else
    let resetTime := now
    let summary := mkPeriodSummary s now
    if 0 < s.totalHours then
      if !summarySaveOk then
        { s with error := "Failed to reset totals. Please try again." }
      else
        let s1 :=
          { s with
            savedPeriods := summary :: s.savedPeriods
            previousPeriods := summary :: s.previousPeriods }
        if !resetSaveOk then
          { s1 with error := "Failed to reset totals. Please try again." }
        else
          { s1 with
            savedResetTime := some resetTime
            lastResetTime := some resetTime }
    else
      if !resetSaveOk then
        { s with error := "Failed to reset totals. Please try again." }
      else
        { s with
          savedResetTime := some resetTime
          lastResetTime := some resetTime }

/-- getLastResetTime from src/unnamed/part_001 lines 79-88.  The argument is
the outcome of the awaited settings-store read: Except.error for a rejected
read (the catch branch logs and returns null), Except.ok none for no stored
record, and Except.ok (some v) for a stored record with value v. -/
def getLastResetTime (readResult : Except String (Option String)) :
    Option String :=
  match readResult with
  | Except.error _ => none
  | Except.ok none => none
  | Except.ok (some v) => some v

/-- A sample current-period entry used by the concrete witnesses. -/
def entryA : WorkEntry :=
  { id := some "1"
    date := 3
    startTime := "09:00"
    endTime := "17:00"
    hoursWorked := 8
    location := "Brakel 18km"
    kilometers := 18
    addedAt := 10 }

/-- A sample older entry used by the concrete witnesses. -/
def entryB : WorkEntry :=
  { id := some "2"
    date := 5
    startTime := "09:00"
    endTime := "12:00"
    hoursWorked := 3
    location := "Gent 50km"
    kilometers := 50
    addedAt := 3 }

/-- A sample consistent tracker state: one current entry, totals matching
the aggregation, no checkpoint yet. -/
def demoState : TrackerState :=
  { entries := [entryA]
    totalHours := 8
    totalKilometers := 18
    error := ""
    previousPeriods := []
    lastResetTime := none
    savedPeriods := []
    savedResetTime := none }

/-- Folding addition of a projected value starting from c equals c plus the
sum of the projections, relating the reduce calls of the source to sums. -/
theorem foldl_add_eq_sum {α β : Type} [AddCommMonoid β] (f : α → β)
    (l : List α) (c : β) :
    l.foldl (fun sum e => sum + f e) c = c + (l.map f).sum := by
  induction l generalizing c with
  | nil => simp
  | cons a l ih => simp [ih, add_assoc]

/-- Rounding to two decimals never turns a nonpositive value positive. -/
theorem round2_nonpos {q : Rat} (h : q ≤ 0) : round2 q ≤ 0 := by
  have h1 : (q * 100 : Rat) ≤ 0 := by nlinarith
  have h2 : round (q * 100) ≤ 0 := by
    rw [round_eq]
    have h3 : (q * 100 + 1 / 2 : Rat) ≤ 1 / 2 := by linarith
    have h4 := Int.floor_le_floor h3
    norm_num at h4
    exact h4
  have h5 : ((round (q * 100) : Int) : Rat) ≤ 0 := by exact_mod_cast h2
  rw [round2]
  linarith

/-- Claim C1: for every collection of WorkEntry and every checkpoint, the
period aggregation returns total hours equal to the sum of hoursWorked and
total kilometers equal to the sum of kilometers over exactly the subset of
entries whose addedAt is strictly greater than the checkpoint; with an
absent checkpoint every entry is included, and no entry with
addedAt less than or equal to the checkpoint is ever included. -/
theorem claim1_aggregate_exact (entries : List WorkEntry)
    (checkpoint : Option Nat) :
    (aggregate entries checkpoint).1
        = ((entries.filter (fun e => isCurrentEntry checkpoint e)).map
            (fun e => e.hoursWorked)).sum
    ∧ (aggregate entries checkpoint).2
        = ((entries.filter (fun e => isCurrentEntry checkpoint e)).map
            (fun e => e.kilometers)).sum
    ∧ (checkpoint = none → currentPeriodEntries entries checkpoint = entries)
    ∧ (∀ t, checkpoint = some t →
        ∀ e ∈ currentPeriodEntries entries checkpoint, t < e.addedAt)
    ∧ (∀ t e, checkpoint = some t → e ∈ entries → e.addedAt ≤ t →
        e ∉ currentPeriodEntries entries checkpoint) := by
  refine ⟨?_, ?_, ?_, ?_, ?_⟩
  · simp only [aggregate]
    rw [foldl_add_eq_sum (fun (e : WorkEntry) => e.hoursWorked)]
    simp [currentPeriodEntries]
  · simp only [aggregate]
    rw [foldl_add_eq_sum (fun (e : WorkEntry) => e.kilometers)]
    simp [currentPeriodEntries]
  · rintro rfl
    simp [currentPeriodEntries, isCurrentEntry]
  · rintro t rfl e he
    rw [currentPeriodEntries, List.mem_filter] at he
    simpa [isCurrentEntry] using he.2
  · rintro t e rfl he hle hmem
    rw [currentPeriodEntries, List.mem_filter] at hmem
    have := hmem.2
    simp [isCurrentEntry] at this
    omega

/-- Witness for claim C1 at a concrete two-entry collection and checkpoint
5: the entry added at time 3 is excluded. -/
theorem claim1_aggregate_exact_witness :
    entryB ∈ [entryA, entryB] ∧ entryB.addedAt ≤ 5
    ∧ entryB ∉ currentPeriodEntries [entryA, entryB] (some 5) :=
  ⟨by decide, by decide,
    (claim1_aggregate_exact [entryA, entryB] (some 5)).2.2.2.2 5 entryB rfl
      (by decide) (by decide)⟩

/-- Claim C8: the distance resolver returns 18 when the label contains the
substring Brakel (case-sensitive) and 50 otherwise, with the three concrete
examples of the spec. -/
theorem claim8_getKilometers_policy (loc : String) :
    ("Brakel".data <:+: loc.data → getKilometers loc = 18)
    ∧ (¬ "Brakel".data <:+: loc.data → getKilometers loc = 50)
    ∧ getKilometers "Brakel 18km" = 18
    ∧ getKilometers "Gent 50km" = 50
    ∧ getKilometers "Brakel-Other" = 18 := by
  refine ⟨fun h => ?_, fun h => ?_, by decide, by decide, by decide⟩
  · simp [getKilometers, h]
  · simp [getKilometers, h]

/-- Witness for claim C8 at the label Brakel 18km. -/
theorem claim8_getKilometers_policy_witness :
    ("Brakel".data <:+: "Brakel 18km".data)
    ∧ getKilometers "Brakel 18km" = 18 :=
  ⟨by decide, (claim8_getKilometers_policy "Brakel 18km").1 (by decide)⟩

/-- Claim C10: getLastResetTime returns null both when no checkpoint was
ever stored and when the storage read fails, so the two cases are
indistinguishable, and an absent checkpoint makes every entry count as
current-period. -/
theorem claim10_getLastResetTime_total :
    (∀ msg, getLastResetTime (Except.error msg) = none)
    ∧ getLastResetTime (Except.ok none) = none
    ∧ (∀ msg, getLastResetTime (Except.error msg)
        = getLastResetTime (Except.ok none))
    ∧ (∀ entries, currentPeriodEntries entries none = entries) := by
  refine ⟨fun msg => rfl, rfl, fun msg => rfl, fun entries => ?_⟩
  simp [currentPeriodEntries, isCurrentEntry]

/-- Claim C4: for every pair of HH:MM strings with hour in 0..23 and minute
in 0..59, the duration calculator computes endHour minus startHour and
endMinute minus startMinute, borrows when the minutes are negative, and
returns hours plus minutes over 60 rounded to 2 decimal places (stated in
the equivalent closed form (end minus start in minutes) over 60); it does
not clamp or wrap past midnight, so an end at or before the start gives a
nonpositive result; and the three concrete examples of the spec hold. -/
theorem claim4_calculateHours_algorithm (start stop : String)
    (sh sm eh em : Int)
    (hs : timeParts start = (sh, sm)) (he : timeParts stop = (eh, em))
    (hsh0 : 0 ≤ sh) (hsh1 : sh ≤ 23) (heh0 : 0 ≤ eh) (heh1 : eh ≤ 23)
    (hsm0 : 0 ≤ sm) (hsm1 : sm ≤ 59) (hem0 : 0 ≤ em) (hem1 : em ≤ 59) :
    calculateHours start stop
        = round2 ((((eh * 60 + em) - (sh * 60 + sm) : Int) : Rat) / 60)
    ∧ ((eh < sh ∨ (eh = sh ∧ em ≤ sm)) → calculateHours start stop ≤ 0)
    ∧ calculateHours "09:00" "17:00" = 8
    ∧ calculateHours "09:15" "17:00" = 7.75
    ∧ calculateHours "09:00" "09:00" = 0 := by
  have hmain : calculateHours start stop
      = round2 ((((eh * 60 + em) - (sh * 60 + sm) : Int) : Rat) / 60) := by
    simp only [calculateHours, hs, he]
    split_ifs with hneg
    · congr 1
      push_cast
      ring
    · congr 1
      push_cast
      ring
  have hnp : (eh < sh ∨ (eh = sh ∧ em ≤ sm)) → calculateHours start stop ≤ 0 := by
    intro hlt
    rw [hmain]
    apply round2_nonpos
    have hES : (eh * 60 + em) - (sh * 60 + sm) ≤ 0 := by
      rcases hlt with h | ⟨rfl, h⟩ <;> omega
    have hcast : (((eh * 60 + em) - (sh * 60 + sm) : Int) : Rat) ≤ 0 := by
      exact_mod_cast hES
    linarith
  have hc1 : calculateHours "09:00" "17:00" = 8 := by
    have h1 : timeParts "09:00" = (9, 0) := by decide
    have h2 : timeParts "17:00" = (17, 0) := by decide
    simp [calculateHours, h1, h2, round2, round_eq]
    norm_num
  have hc2 : calculateHours "09:15" "17:00" = 7.75 := by
    have h1 : timeParts "09:15" = (9, 15) := by decide
    have h2 : timeParts "17:00" = (17, 0) := by decide
    simp [calculateHours, h1, h2, round2, round_eq]
    norm_num
  have hc3 : calculateHours "09:00" "09:00" = 0 := by
    have h1 : timeParts "09:00" = (9, 0) := by decide
    simp [calculateHours, h1, round2, round_eq]
    norm_num
  exact ⟨hmain, hnp, hc1, hc2, hc3⟩

/-- Witness for claim C4 at the concrete pair 09:15 and 17:00. -/
theorem claim4_calculateHours_algorithm_witness :
    timeParts "09:15" = (9, 15) ∧ timeParts "17:00" = (17, 0)
    ∧ calculateHours "09:15" "17:00"
        = round2 ((((17 * 60 + 0) - (9 * 60 + 15) : Int) : Rat) / 60) :=
  ⟨by decide, by decide,
    (claim4_calculateHours_algorithm "09:15" "17:00" 9 15 17 0 (by decide)
      (by decide) (by decide) (by decide) (by decide) (by decide) (by decide)
      (by decide) (by decide) (by decide)).1⟩

/-- Claim C9: the add-entry operation refuses to proceed on a missing date
or a non-positive computed duration, surfacing an error message and leaving
the entry collection and all derived state unchanged. -/
theorem claim9_invalid_input_no_write (s : TrackerState) (date : Option Nat)
    (startTime endTime location : String) (now : Nat) (saveOk : Bool) :
    (date = none →
      handleAddEntry s date startTime endTime location now saveOk
        = { s with error := "Please select a date" })
    ∧ (∀ d, date = some d → calculateHours startTime endTime ≤ 0 →
      handleAddEntry s date startTime endTime location now saveOk
        = { s with error := "End time must be after start time" })
    ∧ ((date = none ∨ calculateHours startTime endTime ≤ 0) →
        (handleAddEntry s date startTime endTime location now saveOk).entries
            = s.entries
        ∧ (handleAddEntry s date startTime endTime location now saveOk).totalHours
            = s.totalHours
        ∧ (handleAddEntry s date startTime endTime location now saveOk).totalKilometers
            = s.totalKilometers
        ∧ (handleAddEntry s date startTime endTime location now saveOk).previousPeriods
            = s.previousPeriods
        ∧ (handleAddEntry s date startTime endTime location now saveOk).lastResetTime
            = s.lastResetTime
        ∧ (handleAddEntry s date startTime endTime location now saveOk).savedPeriods
            = s.savedPeriods
        ∧ (handleAddEntry s date startTime endTime location now saveOk).savedResetTime
            = s.savedResetTime) := by
  refine ⟨?_, ?_, ?_⟩
  · rintro rfl
    rfl
  · rintro d rfl hle
    simp [handleAddEntry, hle]
  · rintro (rfl | hle)
    · simp [handleAddEntry]
    · cases date with
      | none => simp [handleAddEntry]
      | some d => simp [handleAddEntry, hle]

/-- Witness for claim C9: a concrete end time before the start time is
rejected without touching the state. -/
theorem claim9_invalid_input_no_write_witness :
    calculateHours "17:00" "09:00" ≤ 0
    ∧ handleAddEntry demoState (some 7) "17:00" "09:00" "Gent 50km" 99 true
        = { demoState with error := "End time must be after start time" } := by
  have hle : calculateHours "17:00" "09:00" ≤ 0 := by
    have h1 : timeParts "17:00" = (17, 0) := by decide
    have h2 : timeParts "09:00" = (9, 0) := by decide
    simp [calculateHours, h1, h2, round2, round_eq]
    norm_num
  exact ⟨hle,
    (claim9_invalid_input_no_write demoState (some 7) "17:00" "09:00"
      "Gent 50km" 99 true).2.1 7 rfl hle⟩

/-- Claim C2: the reset operation (in the run where every persistence call
succeeds) creates and persists the new PeriodSummary, with identifier
toString now, the formatted resetDate, the computed boundary dates, and the
frozen current totals, exactly when the current total hours are strictly
positive; with nonpositive totals nothing is created; and in both cases the
checkpoint advances to now. -/
theorem claim2_reset_summary_iff (s : TrackerState) (now : Nat)
    (hth : s.totalHours = (aggregate s.entries s.lastResetTime).1)
    (htk : s.totalKilometers = (aggregate s.entries s.lastResetTime).2) :
    (0 < s.totalHours →
        (handleResetTotals s true now true true).savedPeriods
            = mkPeriodSummary s now :: s.savedPeriods
        ∧ (handleResetTotals s true now true true).previousPeriods
            = mkPeriodSummary s now :: s.previousPeriods)
    ∧ (s.totalHours ≤ 0 →
        (handleResetTotals s true now true true).savedPeriods = s.savedPeriods
        ∧ (handleResetTotals s true now true true).previousPeriods
            = s.previousPeriods)
    ∧ (handleResetTotals s true now true true).lastResetTime = some now
    ∧ (handleResetTotals s true now true true).savedResetTime = some now
    ∧ (mkPeriodSummary s now).id = toString now
    ∧ (mkPeriodSummary s now).resetDate = formatDateTime now
    ∧ (mkPeriodSummary s now).startDate
        = periodStartDate (currentPeriodEntries s.entries s.lastResetTime)
    ∧ (mkPeriodSummary s now).endDate
        = periodEndDate (currentPeriodEntries s.entries s.lastResetTime)
    ∧ (mkPeriodSummary s now).totalHours
        = (aggregate s.entries s.lastResetTime).1
    ∧ (mkPeriodSummary s now).totalKilometers
        = (aggregate s.entries s.lastResetTime).2 := by
  refine ⟨fun hpos => ?_, fun hle => ?_, ?_, ?_, rfl, rfl, rfl, rfl, ?_, ?_⟩
  · simp [handleResetTotals, hpos]
  · have hnpos : ¬ 0 < s.totalHours := by linarith
    simp [handleResetTotals, hnpos]
  · by_cases hpos : 0 < s.totalHours <;> simp [handleResetTotals, hpos]
  · by_cases hpos : 0 < s.totalHours <;> simp [handleResetTotals, hpos]
  · simpa [mkPeriodSummary] using hth
  · simpa [mkPeriodSummary] using htk

/-- Witness for claim C2 at a concrete consistent state. -/
theorem claim2_reset_summary_iff_witness :
    demoState.totalHours = (aggregate demoState.entries demoState.lastResetTime).1
    ∧ demoState.totalKilometers
        = (aggregate demoState.entries demoState.lastResetTime).2
    ∧ (handleResetTotals demoState true 100 true true).lastResetTime
        = some 100 := by
  have hth : demoState.totalHours
      = (aggregate demoState.entries demoState.lastResetTime).1 := by
    simp [demoState, aggregate, currentPeriodEntries, isCurrentEntry, entryA]
  have htk : demoState.totalKilometers
      = (aggregate demoState.entries demoState.lastResetTime).2 := by
    simp [demoState, aggregate, currentPeriodEntries, isCurrentEntry, entryA]
  exact ⟨hth, htk, (claim2_reset_summary_iff demoState 100 hth htk).2.2.1⟩

/-- Claim C3 counterexample: at the concrete state below (positive totals),
the summary write succeeds and the checkpoint write fails; the summary is
persisted while the checkpoint does not advance, so summary creation and
checkpoint advancement do not both take effect or both fail. -/
theorem claim3_reset_not_atomic_counterexample :
    (handleResetTotals demoState true 100 true false).savedPeriods
        ≠ demoState.savedPeriods
    ∧ (handleResetTotals demoState true 100 true false).savedResetTime
        = demoState.savedResetTime := by
  decide

/-- Amended claim C3: one direction of the atomicity does hold: when
persisting the PeriodSummary fails, the catch block skips the checkpoint
write, so neither the summary nor the checkpoint takes effect.  In the other
direction it fails: when the checkpoint write fails after a successful
summary write, the summary stays persisted while the checkpoint is
unchanged. -/
theorem claim3_reset_failure_semantics (s : TrackerState) (now : Nat)
    (resetSaveOk : Bool) (hpos : 0 < s.totalHours) :
    ((handleResetTotals s true now false resetSaveOk).savedPeriods
        = s.savedPeriods
      ∧ (handleResetTotals s true now false resetSaveOk).savedResetTime
        = s.savedResetTime
      ∧ (handleResetTotals s true now false resetSaveOk).previousPeriods
        = s.previousPeriods
      ∧ (handleResetTotals s true now false resetSaveOk).lastResetTime
        = s.lastResetTime)
    ∧ ((handleResetTotals s true now true false).savedPeriods
        = mkPeriodSummary s now :: s.savedPeriods
      ∧ (handleResetTotals s true now true false).savedResetTime
        = s.savedResetTime) := by
  refine ⟨⟨?_, ?_, ?_, ?_⟩, ?_, ?_⟩ <;> simp [handleResetTotals, hpos]

/-- Witness for the amended claim C3 at the concrete state. -/
theorem claim3_reset_failure_semantics_witness :
    0 < demoState.totalHours
    ∧ (handleResetTotals demoState true 100 false true).savedPeriods
        = demoState.savedPeriods :=
  ⟨by decide, (claim3_reset_failure_semantics demoState 100 true (by decide)).1.1⟩

/-- Claim C6: when every entry was added at or before T, closing the period
at time T advances the checkpoint to T and aggregating the same entries
against the new checkpoint yields zero hours and zero kilometers. -/
theorem claim6_close_then_aggregate_zero (s : TrackerState) (T : Nat)
    (hall : ∀ e ∈ s.entries, e.addedAt ≤ T) :
    (handleResetTotals s true T true true).lastResetTime = some T
    ∧ aggregate s.entries (handleResetTotals s true T true true).lastResetTime
        = (0, 0) := by
  have hlast : (handleResetTotals s true T true true).lastResetTime = some T := by
    by_cases hpos : 0 < s.totalHours <;> simp [handleResetTotals, hpos]
  refine ⟨hlast, ?_⟩
  rw [hlast]
  have hnil : currentPeriodEntries s.entries (some T) = [] := by
    rw [currentPeriodEntries, List.filter_eq_nil_iff]
    intro e he
    have := hall e he
    simp [isCurrentEntry]
    omega
  simp [aggregate, hnil]

/-- Witness for claim C6 at the concrete state and close time 100. -/
theorem claim6_close_then_aggregate_zero_witness :
    (∀ e ∈ demoState.entries, e.addedAt ≤ 100)
    ∧ aggregate demoState.entries
        (handleResetTotals demoState true 100 true true).lastResetTime
        = (0, 0) :=
  ⟨by decide, (claim6_close_then_aggregate_zero demoState 100 (by decide)).2⟩

/-- The startDate computation picks an entry of minimum date. -/
theorem periodStartDate_is_min (l : List WorkEntry) (hne : l ≠ []) :
    ∃ a ∈ l, (∀ e ∈ l, a.date ≤ e.date)
      ∧ periodStartDate l = formatLongDate a.date := by
  have hperm := List.perm_insertionSort dateAsc l
  have hsorted := List.sorted_insertionSort dateAsc l
  cases hs : List.insertionSort dateAsc l with
  | nil =>
    rw [hs] at hperm
    exact absurd hperm.nil_eq.symm hne
  | cons a rest =>
    rw [hs] at hperm hsorted
    refine ⟨a, hperm.mem_iff.mp (List.mem_cons_self a rest), fun e he => ?_, ?_⟩
    · rcases List.mem_cons.mp (hperm.mem_iff.mpr he) with rfl | hrest
      · exact Nat.le_refl _
      · exact List.rel_of_sorted_cons hsorted e hrest
    · simp [periodStartDate, hs]

/-- The endDate computation picks an entry of maximum date. -/
theorem periodEndDate_is_max (l : List WorkEntry) (hne : l ≠ []) :
    ∃ b ∈ l, (∀ e ∈ l, e.date ≤ b.date)
      ∧ periodEndDate l = formatLongDate b.date := by
  have hperm := List.perm_insertionSort dateDesc l
  have hsorted := List.sorted_insertionSort dateDesc l
  cases hs : List.insertionSort dateDesc l with
  | nil =>
    rw [hs] at hperm
    exact absurd hperm.nil_eq.symm hne
  | cons b rest =>
    rw [hs] at hperm hsorted
    refine ⟨b, hperm.mem_iff.mp (List.mem_cons_self b rest), fun e he => ?_, ?_⟩
    · rcases List.mem_cons.mp (hperm.mem_iff.mpr he) with rfl | hrest
      · exact Nat.le_refl _
      · exact List.rel_of_sorted_cons hsorted e hrest
    · simp [periodEndDate, hs]

/-- Claim C7: the created summary (created whenever the totals are positive)
carries as startDate the formatted date of a minimum-date current-period
entry and as endDate the formatted date of a maximum-date one; with zero
current-period entries both fields are the sentinel label No entries. -/
theorem claim7_summary_boundary_dates (s : TrackerState) (now : Nat)
    (hpos : 0 < s.totalHours) :
    (handleResetTotals s true now true true).previousPeriods.head?
        = some (mkPeriodSummary s now)
    ∧ (currentPeriodEntries s.entries s.lastResetTime = [] →
        (mkPeriodSummary s now).startDate = "No entries"
        ∧ (mkPeriodSummary s now).endDate = "No entries")
    ∧ (currentPeriodEntries s.entries s.lastResetTime ≠ [] →
        (∃ a ∈ currentPeriodEntries s.entries s.lastResetTime,
            (∀ e ∈ currentPeriodEntries s.entries s.lastResetTime,
              a.date ≤ e.date)
            ∧ (mkPeriodSummary s now).startDate = formatLongDate a.date)
        ∧ (∃ b ∈ currentPeriodEntries s.entries s.lastResetTime,
            (∀ e ∈ currentPeriodEntries s.entries s.lastResetTime,
              e.date ≤ b.date)
            ∧ (mkPeriodSummary s now).endDate = formatLongDate b.date)) := by
  refine ⟨?_, fun hnil => ?_, fun hne => ?_⟩
  · simp [handleResetTotals, hpos]
  · constructor <;>
      simp [mkPeriodSummary, periodStartDate, periodEndDate, hnil,
        List.insertionSort]
  · constructor
    · have h := periodStartDate_is_min _ hne
      simpa [mkPeriodSummary] using h
    · have h := periodEndDate_is_max _ hne
      simpa [mkPeriodSummary] using h

/-- Witness for claim C7 at the concrete state. -/
theorem claim7_summary_boundary_dates_witness :
    0 < demoState.totalHours
    ∧ (handleResetTotals demoState true 100 true true).previousPeriods.head?
        = some (mkPeriodSummary demoState 100) :=
  ⟨by decide, (claim7_summary_boundary_dates demoState 100 (by decide)).1⟩

/-- Replacing the element at the index found by findIdx with a function of
itself equals mapping that function over the matching elements, provided at
most one element satisfies the predicate. -/
theorem set_at_findIdx_eq_mapIf {α : Type} (p : α → Bool) (f : α → α) :
    ∀ (l : List α), l.Pairwise (fun a b => p a = true → p b = false) →
      ∀ old, l[l.findIdx p]? = some old →
        l.set (l.findIdx p) (f old)
          = l.map (fun e => if p e then f e else e) := by
  intro l
  induction l with
  | nil =>
    intro _ old hold
    simp at hold
  | cons a l ih =>
    intro hpw old hold
    rcases List.pairwise_cons.mp hpw with ⟨hhead, htail⟩
    by_cases hp : p a = true
    · rw [List.findIdx_cons] at hold ⊢
      rw [hp] at hold ⊢
      simp only [cond_true] at hold ⊢
      rw [List.getElem?_cons_zero] at hold
      injection hold with hold
      subst hold
      rw [List.set_cons_zero, List.map_cons]
      have hmap : l.map (fun e => if p e then f e else e) = l.map id := by
        apply List.map_congr_left
        intro e he
        simp [hhead e he hp]
      rw [hmap, List.map_id]
      simp [hp]
    · have hp2 : p a = false := by simpa using hp
      rw [List.findIdx_cons] at hold ⊢
      rw [hp2] at hold ⊢
      simp only [cond_false] at hold ⊢
      rw [List.getElem?_cons_succ] at hold
      rw [List.set_cons_succ, List.map_cons]
      rw [ih htail old hold]
      simp [hp2]

/-- When some element satisfies p, findIdx? finds the findIdx index and an
element sits at that index. -/
theorem findIdx_found {α : Type} (p : α → Bool) (l : List α)
    (hex : ∃ x ∈ l, p x = true) :
    l.findIdx? p = some (l.findIdx p)
    ∧ ∃ old, l[l.findIdx p]? = some old := by
  refine ⟨List.findIdx?_eq_some_of_exists hex, ?_⟩
  have hlt := List.findIdx_lt_length_of_exists hex
  exact ⟨_, List.getElem?_eq_getElem hlt⟩

/-- Claim C5: when the entry list has at most one entry per calendar date,
adding an entry for a date that already has one updates that entry in place,
keeping its identifier and its original addedAt while replacing the start
time, end time, hours, location and kilometers; adding for a fresh date
appends a new entry; and in either case the at-most-one-entry-per-date
invariant is preserved. -/
theorem claim5_upsert_per_date (s : TrackerState) (d : Nat)
    (startTime endTime location : String) (now : Nat)
    (hpos : ¬ calculateHours startTime endTime ≤ 0)
    (huniq : s.entries.Pairwise (fun a b => a.date ≠ b.date)) :
    ((∃ e ∈ s.entries, e.date = d) →
        (handleAddEntry s (some d) startTime endTime location now true).entries
          = s.entries.map (fun e =>
              if e.date = d then
                { e with
                  date := d
                  startTime := startTime
                  endTime := endTime
                  hoursWorked := calculateHours startTime endTime
                  location := location
                  kilometers := getKilometers location }
              else e)
        ∧ ∀ e ∈ s.entries, e.date = d →
            ∃ e' ∈ (handleAddEntry s (some d) startTime endTime location now
                true).entries,
              e'.id = e.id ∧ e'.addedAt = e.addedAt ∧ e'.date = d
              ∧ e'.startTime = startTime ∧ e'.endTime = endTime
              ∧ e'.hoursWorked = calculateHours startTime endTime
              ∧ e'.location = location
              ∧ e'.kilometers = getKilometers location)
    ∧ ((∀ e ∈ s.entries, e.date ≠ d) →
        (handleAddEntry s (some d) startTime endTime location now true).entries
          = s.entries ++
              [{ id := some (toString now)
                 date := d
                 startTime := startTime
                 endTime := endTime
                 hoursWorked := calculateHours startTime endTime
                 location := location
                 kilometers := getKilometers location
                 addedAt := now }])
    ∧ (handleAddEntry s (some d) startTime endTime location now
        true).entries.Pairwise (fun a b => a.date ≠ b.date) := by
  have hpw2 : s.entries.Pairwise
      (fun a b => (fun e => e.date == d) a = true
        → (fun e => e.date == d) b = false) := by
    refine huniq.imp ?_
    intro a b hab hpa
    rw [beq_iff_eq] at hpa
    rw [beq_eq_false_iff_ne]
    intro hbd
    exact hab (by rw [hpa, hbd])
  have hupdate : (∃ e ∈ s.entries, e.date = d) →
      (handleAddEntry s (some d) startTime endTime location now true).entries
        = s.entries.map (fun e =>
            if e.date = d then
              { e with
                date := d
                startTime := startTime
                endTime := endTime
                hoursWorked := calculateHours startTime endTime
                location := location
                kilometers := getKilometers location }
            else e) := by
    intro hex0
    have hex : ∃ x ∈ s.entries, (fun e => e.date == d) x = true := by
      obtain ⟨e, he, hed⟩ := hex0
      exact ⟨e, he, by simpa [beq_iff_eq] using hed⟩
    have hfind := (findIdx_found (fun e => e.date == d) s.entries hex).1
    obtain ⟨old, hold⟩ := (findIdx_found (fun e => e.date == d) s.entries hex).2
    have hset := set_at_findIdx_eq_mapIf (fun e => e.date == d)
      (fun e =>
        { e with
          date := d
          startTime := startTime
          endTime := endTime
          hoursWorked := calculateHours startTime endTime
          location := location
          kilometers := getKilometers location })
      s.entries hpw2 old hold
    have hentries : (handleAddEntry s (some d) startTime endTime location now
        true).entries
        = s.entries.set (s.entries.findIdx (fun e => e.date == d))
            { old with
              date := d
              startTime := startTime
              endTime := endTime
              hoursWorked := calculateHours startTime endTime
              location := location
              kilometers := getKilometers location } := by
      simp only [handleAddEntry, hfind, hold, if_neg hpos, Bool.not_true,
        Bool.false_eq_true, if_false]
    rw [hentries, hset]
    apply List.map_congr_left
    intro e he
    by_cases hed : e.date = d
    · simp [hed]
    · simp [hed]
  have hinsert : (∀ e ∈ s.entries, e.date ≠ d) →
      (handleAddEntry s (some d) startTime endTime location now true).entries
        = s.entries ++
            [{ id := some (toString now)
               date := d
               startTime := startTime
               endTime := endTime
               hoursWorked := calculateHours startTime endTime
               location := location
               kilometers := getKilometers location
               addedAt := now }] := by
    intro hnone0
    have hnone : s.entries.findIdx? (fun e => e.date == d) = none := by
      rw [List.findIdx?_eq_none_iff]
      intro x hx
      rw [beq_eq_false_iff_ne]
      exact hnone0 x hx
    simp only [handleAddEntry, hnone, if_neg hpos, Bool.not_true,
      Bool.false_eq_true, if_false]
  refine ⟨fun hex => ⟨hupdate hex, ?_⟩, hinsert, ?_⟩
  · intro e he hed
    refine ⟨{ e with
        date := d
        startTime := startTime
        endTime := endTime
        hoursWorked := calculateHours startTime endTime
        location := location
        kilometers := getKilometers location }, ?_,
      rfl, rfl, rfl, rfl, rfl, rfl, rfl, rfl⟩
    rw [hupdate hex]
    have hm := List.mem_map_of_mem (fun e =>
      if e.date = d then
        { e with
          date := d
          startTime := startTime
          endTime := endTime
          hoursWorked := calculateHours startTime endTime
          location := location
          kilometers := getKilometers location }
      else e) he
    simpa [hed] using hm
  · by_cases hex0 : ∃ e ∈ s.entries, e.date = d
    · rw [hupdate hex0, List.pairwise_map]
      refine huniq.imp ?_
      intro a b hab
      have ha : (if a.date = d then
          { a with
            date := d
            startTime := startTime
            endTime := endTime
            hoursWorked := calculateHours startTime endTime
            location := location
            kilometers := getKilometers location }
          else a).date = a.date := by
        by_cases h : a.date = d <;> simp [h]
      have hb : (if b.date = d then
          { b with
            date := d
            startTime := startTime
            endTime := endTime
            hoursWorked := calculateHours startTime endTime
            location := location
            kilometers := getKilometers location }
          else b).date = b.date := by
        by_cases h : b.date = d <;> simp [h]
      rw [ha, hb]
      exact hab
    · push_neg at hex0
      rw [hinsert hex0, List.pairwise_append]
      refine ⟨huniq, by simp, ?_⟩
      intro a ha b hb
      simp only [List.mem_singleton] at hb
      subst hb
      simpa using hex0 a ha

/-- Witness for claim C5 at a concrete state with one entry. -/
theorem claim5_upsert_per_date_witness :
    ¬ calculateHours "09:00" "17:00" ≤ 0
    ∧ (handleAddEntry demoState (some 3) "09:00" "17:00" "Gent 50km" 50
        true).entries.Pairwise (fun a b => a.date ≠ b.date) := by
  have hpos : ¬ calculateHours "09:00" "17:00" ≤ 0 := by
    have h1 : timeParts "09:00" = (9, 0) := by decide
    have h2 : timeParts "17:00" = (17, 0) := by decide
    simp [calculateHours, h1, h2, round2, round_eq]
    norm_num
  have huniq : demoState.entries.Pairwise (fun a b => a.date ≠ b.date) := by
    simp [demoState]
  exact ⟨hpos,
    (claim5_upsert_per_date demoState 3 "09:00" "17:00" "Gent 50km" 50 hpos
      huniq).2.2⟩
